import Mathlib

/-!
Verification development for the MoEngage support-assistant orchestration core
(`src/server/moe_support_agent/`).  Strings are modelled as `List Char`; Python
`s.lower()` is modelled character-wise and `s.strip()` removes leading and
trailing whitespace.  Each definition is a direct translation of the named
Python function.
-/

namespace MoeAssist

/-- Python `str.lower()`, modelled character-wise. -/
def lowerL (s : List Char) : List Char := s.map Char.toLower

/-- Python `str.strip()`: drop leading and trailing whitespace. -/
def strip (s : List Char) : List Char :=
  ((s.dropWhile Char.isWhitespace).reverse.dropWhile Char.isWhitespace).reverse

/-- Python `pat in s` (substring containment). -/
def containsSub (pat : List Char) : List Char → Bool
  | [] => pat.isPrefixOf ([] : List Char)
  | c :: rest => pat.isPrefixOf (c :: rest) || containsSub pat rest

/-- Python `s.rfind(pat)`: index of the last occurrence of `pat` in `s`,
`none` when `pat` does not occur (Python returns `-1`). -/
def lastOccur (pat : List Char) : List Char → Option Nat
  | [] => if pat.isPrefixOf ([] : List Char) then some 0 else none
  | c :: rest =>
      match lastOccur pat rest with
      | some j => some (j + 1)
      | none => if pat.isPrefixOf (c :: rest) then some 0 else none

/-! ## Response Stream Processor
Translation of `planner/whatsapp_planner.py` (`WhatsAppDeepReasonPlanner`).
A `Part` mirrors `google.genai.types.Part` as used by the planner:
`function_call` is `some name` when the fragment is a function call (`name` is
`""` for a falsy name), `text` is the optional text payload, and `thought`
is the hidden-reasoning flag set by `_mark_as_thought`. -/

structure Part where
  function_call : Option String := none
  text : Option (List Char) := none
  thought : Bool := false
deriving DecidableEq, Repr

/-- `WhatsAppDeepReasonPlanner.FINAL_ANSWER_TAG`. -/
def FINAL_ANSWER_TAG : List Char := "/*FINAL_ANSWER*/".toList

/-- The `thinking_tags` list of `_handle_text_part`. -/
def thinking_tags : List (List Char) :=
  ["/*THINK*/".toList, "/*INTUITION*/".toList, "/*HYPOTHESIS*/".toList,
   "/*PLAN*/".toList, "/*OBSERVATION*/".toList, "/*REFLECTION*/".toList,
   "/*REPLAN*/".toList]

/-- `WhatsAppDeepReasonPlanner._mark_as_thought`: sets `thought = True` only
when the part's text is truthy (non-`None` and non-empty). -/
def markAsThought (p : Part) : Part :=
  match p.text with
  | some t => if t ≠ [] then { p with thought := true } else p
  | none => p

/-- `WhatsAppDeepReasonPlanner._split_by_last_pattern`:
`rfind` then split after the separator; `(text, '')` when not found. -/
def splitByLastPattern (text sep : List Char) : List Char × List Char :=
  match lastOccur sep text with
  | none => (text, [])
  | some i => (text.take (i + sep.length), text.drop (i + sep.length))

/-- `WhatsAppDeepReasonPlanner._handle_text_part`, returned as the list of
parts it appends to `preserved_parts` (in order). -/
def handleTextPart (p : Part) : List Part :=
  match p.text with
  | none => []
  | some text =>
      if containsSub FINAL_ANSWER_TAG text then
        let split := splitByLastPattern text FINAL_ANSWER_TAG
        (if split.1 ≠ [] then
            [markAsThought { function_call := none, text := some split.1 }]
          else []) ++
        (if split.2 ≠ [] then
            [{ function_call := none, text := some split.2 }]
          else [])
      else
        if thinking_tags.any (fun tag => containsSub tag text) then
          [markAsThought p]
        else
          [p]

/-- The inner `while` loop of `process_planning_response`: starting right
after the first named function call, keep every immediately following
function-call part (those with a falsy name are skipped but do not end the
run), and stop at the first non-function-call part. -/
def collectRun : List Part → List Part
  | [] => []
  | p :: rest =>
      match p.function_call with
      | some name => (if name = "" then [] else [p]) ++ collectRun rest
      | none => []

/-- The `for` loop of `WhatsAppDeepReasonPlanner.process_planning_response`:
function-call parts with a falsy name are skipped; the first named function
call starts a terminal run (`break` afterwards); text parts before any run
are classified by `_handle_text_part`. -/
def processParts : List Part → List Part
  | [] => []
  | p :: rest =>
      match p.function_call with
      | some name =>
          if name = "" then processParts rest
          else p :: collectRun rest
      | none =>
          match p.text with
          | some _ => handleTextPart p ++ processParts rest
          | none => processParts rest

/-- `WhatsAppDeepReasonPlanner.process_planning_response`
(returns `None` for an empty fragment list). -/
def process_planning_response (response_parts : List Part) :
    Option (List Part) :=
  if response_parts.isEmpty then none else some (processParts response_parts)

/-- Shorthand for a plain text fragment as produced by the model stream. -/
def textPart (s : List Char) : Part := { text := some s }

/-- A text fragment tagged hidden (`thought = True`). -/
def thoughtPart (s : List Char) : Part := { text := some s, thought := true }


/-! ## Session state
The mutable `ctx.session.state` dictionary, restricted to the keys the
orchestration core reads and writes (`conversation_manager.py`,
`specialists/*.py`).  Absent keys are modelled by the defaults that
`state.get(key, default)` supplies (`""`, `[]`, `0`); the lazily created
per-domain context blocks are `Option` fields (`none` = key absent). -/

/-- Entry of `session.state["conversation_history"]`
(`{"role", "content", "timestamp"}`). -/
structure HistoryEntry where
  role : String
  content : List Char
  timestamp : String
deriving DecidableEq, Repr

/-- `session.state["technical_context"]` block (also used by the push and
WhatsApp specialists).  `findings` is created empty and never written by the
orchestration code. -/
structure TechnicalContext where
  investigation_started : Bool := true
  tools_used : List String := []
  findings : List (String × List Char) := []
  previous_queries : List (List Char) := []
  investigation_completed : Option Bool := none
deriving DecidableEq, Repr

/-- `session.state["knowledge_context"]` block. -/
structure KnowledgeContext where
  searches_performed : List (List Char) := []
  findings : List (String × List Char) := []
  previous_queries : List (List Char) := []
  sources_used : List String := []
  search_completed : Option Bool := none
deriving DecidableEq, Repr

/-- `session.state["followup_context"]` block. -/
structure FollowupContext where
  followup_count : Nat := 0
  context_switches : List String := []
  previous_findings : List (String × List Char) := []
  last_handled : Option (List Char) := none
deriving DecidableEq, Repr

/-- `session.state["ticket_context"]` block. -/
structure TicketContext where
  tickets_analyzed : List (List Char) := []
  patterns_found : List (List Char) := []
  previous_queries : List (List Char) := []
  analysis_results : List (String × List Char) := []
  analysis_completed : Option Bool := none
deriving DecidableEq, Repr

/-- The session-state keys touched by the conversational architecture. -/
structure SessionState where
  current_query : List Char := []
  conversation_context : String := ""
  last_active_agent : String := ""
  transfer_reason : String := ""
  message_count : Nat := 0
  conversation_history : List HistoryEntry := []
  technical_context : Option TechnicalContext := none
  knowledge_context : Option KnowledgeContext := none
  followup_context : Option FollowupContext := none
  ticket_context : Option TicketContext := none
deriving DecidableEq, Repr

/-! ## Intent Classifiers
`ConversationManager._classify_intent` (conversation_manager.py) and
`WhatsAppSupportOrchestrator._classify_user_intent` (agent.py).  Both first
compute `query_lower = user_query.lower().strip()`; the Lean functions take
that lower-cased, stripped text as input. -/

/-- `greeting_patterns` of `ConversationManager._classify_intent`. -/
def greeting_patterns : List (List Char) :=
  ["hi".toList, "hello".toList, "hey".toList, "good morning".toList,
   "good afternoon".toList, "good evening".toList]

/-- `followup_patterns` of `ConversationManager._classify_intent`. -/
def followup_patterns : List (List Char) :=
  ["what about".toList, "what if".toList, "can you also".toList,
   "how about".toList, "and what".toList, "also".toList,
   "additionally".toList, "furthermore".toList, "what else".toList,
   "any other".toList, "follow up".toList, "more details".toList,
   "explain more".toList, "tell me more".toList]

/-- `context_keywords["technical"]`. -/
def technical_context_keywords : List (List Char) :=
  ["campaign".toList, "delivery".toList, "error".toList, "issue".toList,
   "problem".toList, "debug".toList, "fix".toList]

/-- `context_keywords["knowledge"]`. -/
def knowledge_context_keywords : List (List Char) :=
  ["how".toList, "what".toList, "explain".toList, "guide".toList,
   "setup".toList, "configure".toList]

/-- `context_keywords["ticket"]`. -/
def ticket_context_keywords : List (List Char) :=
  ["ticket".toList, "summary".toList, "analyze".toList, "details".toList]

/-- The `context_keywords` dict lookup (`current_context in context_keywords`
then `context_keywords[current_context]`). -/
def context_keywords (ctx : String) : Option (List (List Char)) :=
  if ctx = "technical" then some technical_context_keywords
  else if ctx = "knowledge" then some knowledge_context_keywords
  else if ctx = "ticket" then some ticket_context_keywords
  else none

/-- `ticket_patterns` of `ConversationManager._classify_intent`. -/
def ticket_patterns : List (List Char) :=
  ["ticket".toList, "zendesk".toList, "summarize".toList, "summarise".toList,
   "summary".toList, "analyze ticket".toList]

/-- `technical_patterns` of `ConversationManager._classify_intent`. -/
def technical_patterns : List (List Char) :=
  ["campaign".toList, "not delivering".toList, "error".toList,
   "failed".toList, "debug".toList, "issue".toList, "problem".toList,
   "api".toList, "logs".toList, "delivery".toList, "performance".toList,
   "rate limit".toList]

/-- `knowledge_patterns` of `ConversationManager._classify_intent`. -/
def knowledge_patterns : List (List Char) :=
  ["how to".toList, "what is".toList, "explain".toList, "setup".toList,
   "configure".toList, "guide".toList, "documentation".toList,
   "help".toList, "best practice".toList, "feature".toList]

/-- `ConversationManager._classify_intent`, applied to
`query_lower = user_query.lower().strip()` and the session state. -/
def classify_intent (query_lower : List Char) (st : SessionState) : String :=
  let current_context := st.conversation_context
  let last_agent := st.last_active_agent
  if greeting_patterns.any (fun g => containsSub g query_lower) &&
      decide (query_lower.length < 25) then "greeting"
  else if followup_patterns.any (fun p => containsSub p query_lower) &&
      !(current_context = "") then "followup"
  else if (!(current_context = "") && !(last_agent = "") &&
      decide (5 < query_lower.length)) &&
      (match context_keywords current_context with
       | some kws => kws.any (fun k => containsSub k query_lower)
       | none => false) then "followup"
  else if ticket_patterns.any (fun p => containsSub p query_lower) then
    "ticket_analysis"
  else if technical_patterns.any (fun p => containsSub p query_lower) then
    "technical_troubleshooting"
  else if knowledge_patterns.any (fun p => containsSub p query_lower) then
    "knowledge_search"
  else if decide ((strip query_lower).length < 5) then "clarification"
  else "general"

/-- `greeting_patterns` of `WhatsAppSupportOrchestrator._classify_user_intent`. -/
def orch_greeting_patterns : List (List Char) :=
  ["hey".toList, "hi".toList, "hello".toList, "good morning".toList,
   "good afternoon".toList, "good evening".toList]

/-- `technical_patterns` of `WhatsAppSupportOrchestrator._classify_user_intent`. -/
def orch_technical_patterns : List (List Char) :=
  ["campaign id".toList, "not delivering".toList, "error".toList,
   "failed".toList, "issue with campaign".toList, "debug".toList,
   "logs".toList, "api".toList]

/-- `knowledge_patterns` of `WhatsAppSupportOrchestrator._classify_user_intent`. -/
def orch_knowledge_patterns : List (List Char) :=
  ["how to".toList, "what is".toList, "explain".toList,
   "documentation".toList, "guide".toList, "setup".toList,
   "configure".toList]

/-- `WhatsAppSupportOrchestrator._classify_user_intent`, applied to
`query_lower = user_query.lower().strip()`. -/
def classify_user_intent (query_lower : List Char) : String :=
  if orch_greeting_patterns.any (fun g => containsSub g query_lower) &&
      decide (query_lower.length < 20) then "greeting"
  else if orch_technical_patterns.any (fun p => containsSub p query_lower) then
    "technical_debug"
  else if orch_knowledge_patterns.any (fun p => containsSub p query_lower) then
    "knowledge_only"
  else if decide ((strip query_lower).length < 5) then "clarification"
  else "knowledge_only"



/-! ## Specialist transfer policies
The `_should_transfer_control` / `_analyze_transfer_need` functions of the
specialist agents.  Each takes the raw `current_query` and lower-cases and
strips it; the `session_state` parameter of the Python functions is never
used (the follow-up specialist reads `conversation_context` into a local
variable that it does not use), so it is omitted here. -/

/-- `TechnicalTroubleshootAgent._should_transfer_control` (also the body of
`PushTroubleshootAgent._should_transfer_control` and
`WhatsAppTroubleshootAgent._should_transfer_control`, which are verbatim
copies with the same patterns and targets). -/
def technical_should_transfer_control (user_query : List Char) : Bool × String :=
  let query_lower := strip (lowerL user_query)
  let non_technical_patterns : List (List Char) :=
    ["how to".toList, "what is".toList, "explain".toList,
     "documentation".toList, "guide".toList, "help".toList,
     "tutorial".toList, "setup".toList, "configure".toList]
  let tech_terms : List (List Char) :=
    ["error".toList, "issue".toList, "problem".toList, "debug".toList,
     "fix".toList]
  let general_patterns : List (List Char) :=
    ["thank you".toList, "thanks".toList, "that\x27s all".toList,
     "no more questions".toList]
  if non_technical_patterns.any (fun p => containsSub p query_lower) &&
      !(tech_terms.any (fun t => containsSub t query_lower)) then
    (true, "KnowledgeSpecialist")
  else if general_patterns.any (fun p => containsSub p query_lower) then
    (true, "MoEngageSupportChatManager")
  else (false, "")

/-- `KnowledgeSpecialist._should_transfer_control`. -/
def knowledge_should_transfer_control (user_query : List Char) : Bool × String :=
  let query_lower := strip (lowerL user_query)
  let technical_pattern_list : List (List Char) :=
    ["error".toList, "issue".toList, "problem".toList, "debug".toList,
     "fix".toList, "not working".toList, "failed".toList,
     "delivery".toList, "api".toList, "logs".toList]
  let general_patterns : List (List Char) :=
    ["thank you".toList, "thanks".toList, "that\x27s all".toList,
     "no more questions".toList]
  if technical_pattern_list.any (fun p => containsSub p query_lower) then
    (true, "TechnicalTroubleshootAgent")
  else if general_patterns.any (fun p => containsSub p query_lower) then
    (true, "ConversationManager")
  else (false, "")

/-- `FollowUpSpecialist._analyze_transfer_need`. -/
def followup_analyze_transfer_need (user_query : List Char) : Bool × String :=
  let query_lower := strip (lowerL user_query)
  let technical_deep_patterns : List (List Char) :=
    ["debug".toList, "logs".toList, "api error".toList,
     "technical details".toList, "investigate".toList, "root cause".toList,
     "performance".toList, "rate limit".toList, "configuration".toList]
  let documentation_patterns : List (List Char) :=
    ["how to".toList, "step by step".toList, "guide".toList,
     "documentation".toList, "tutorial".toList, "setup".toList,
     "configure".toList, "best practice".toList,
     "feature explanation".toList]
  let topic_change_patterns : List (List Char) :=
    ["different question".toList, "new issue".toList,
     "another problem".toList, "switch topic".toList,
     "something else".toList, "different matter".toList]
  if technical_deep_patterns.any (fun p => containsSub p query_lower) then
    (true, "TechnicalTroubleshootAgent")
  else if documentation_patterns.any (fun p => containsSub p query_lower) then
    (true, "KnowledgeSpecialist")
  else if topic_change_patterns.any (fun p => containsSub p query_lower) then
    (true, "ConversationManager")
  else (false, "")

/-- `TicketSpecialist._should_transfer_control`. -/
def ticket_should_transfer_control (user_query : List Char) : Bool × String :=
  let query_lower := strip (lowerL user_query)
  let technical_pattern_list : List (List Char) :=
    ["how to fix".toList, "implement".toList, "debug".toList,
     "technical solution".toList, "api".toList, "configuration".toList,
     "setup".toList, "troubleshoot".toList]
  let documentation_patterns : List (List Char) :=
    ["documentation".toList, "guide".toList, "how to".toList,
     "tutorial".toList, "best practice".toList]
  let general_patterns : List (List Char) :=
    ["thank you".toList, "thanks".toList, "that\x27s all".toList,
     "no more questions".toList]
  if technical_pattern_list.any (fun p => containsSub p query_lower) then
    (true, "TechnicalTroubleshootAgent")
  else if documentation_patterns.any (fun p => containsSub p query_lower) then
    (true, "KnowledgeSpecialist")
  else if general_patterns.any (fun p => containsSub p query_lower) then
    (true, "ConversationManager")
  else (false, "")

/-! ## Agent turns as event producers
Each agent's `_run_async_impl` is modelled as a function from the session
state (plus, for the LLM-backed specialists, the stream of events produced
by `super()._run_async_impl(ctx)` — the external completion call) to the
ordered list of yielded events and the final session state. -/

/-- An ADK `Event` as emitted by the orchestration code: author, text
content, and the optional `EventActions(transfer_to_agent=...)`. -/
structure AgentEvent where
  author : String
  text : List Char
  transfer_to_agent : Option String := none
deriving DecidableEq, Repr

/-- The transfer-announcement text shared by all specialists. -/
def connect_text : List Char :=
  "Let me connect you with the right specialist for this question...".toList

/-- `TechnicalTroubleshootAgent._run_async_impl`.  `llmEvents` is the stream
produced by the parent `LlmAgent` run (the external completion backend). -/
def technicalTurn (st : SessionState) (llmEvents : List AgentEvent) :
    List AgentEvent × SessionState :=
  let current_query := st.current_query
  let tr := technical_should_transfer_control current_query
  if tr.1 then
    ([{ author := "TechnicalTroubleshootAgent", text := connect_text,
        transfer_to_agent := some tr.2 }], st)
  else
    let st1 := { st with
      last_active_agent := "TechnicalTroubleshootAgent",
      conversation_context := "technical" }
    let tc : TechnicalContext :=
      match st1.technical_context with
      | some tc => tc
      | none => {}
    let tc := { tc with previous_queries := tc.previous_queries ++ [current_query] }
    let st2 := { st1 with technical_context := some tc }
    let is_followup := decide (1 < st2.conversation_history.length) &&
      !(st2.transfer_reason = "technical_issue")
    let intro : AgentEvent :=
      if is_followup then
        { author := "TechnicalTroubleshootAgent",
          text := ("Let me continue our technical investigation with " ++
                   "your follow-up question...").toList }
      else
        { author := "TechnicalTroubleshootAgent",
          text := "🔍 Starting technical investigation of your issue...".toList }
    let st3 := { st2 with
      technical_context := some { tc with investigation_completed := some true } }
    (intro :: llmEvents, st3)

/-- `KnowledgeSpecialist._run_async_impl`. -/
def knowledgeTurn (st : SessionState) (llmEvents : List AgentEvent) :
    List AgentEvent × SessionState :=
  let current_query := st.current_query
  let tr := knowledge_should_transfer_control current_query
  if tr.1 then
    ([{ author := "KnowledgeSpecialist", text := connect_text,
        transfer_to_agent := some tr.2 }], st)
  else
    let st1 := { st with
      last_active_agent := "KnowledgeSpecialist",
      conversation_context := "knowledge" }
    let kc : KnowledgeContext :=
      match st1.knowledge_context with
      | some kc => kc
      | none => {}
    let kc := { kc with previous_queries := kc.previous_queries ++ [current_query] }
    let st2 := { st1 with knowledge_context := some kc }
    let is_followup := decide (1 < st2.conversation_history.length) &&
      !(st2.transfer_reason = "knowledge_search")
    let intro : AgentEvent :=
      if is_followup then
        { author := "KnowledgeSpecialist",
          text := ("Let me search for additional information based on " ++
                   "your follow-up question...").toList }
      else
        { author := "KnowledgeSpecialist",
          text := "📚 Searching our knowledge base for relevant information...".toList }
    let st3 := { st2 with
      knowledge_context := some { kc with search_completed := some true } }
    (intro :: llmEvents, st3)

/-- `FollowUpSpecialist._run_async_impl`. -/
def followupTurn (st : SessionState) (llmEvents : List AgentEvent) :
    List AgentEvent × SessionState :=
  let current_query := st.current_query
  let tr := followup_analyze_transfer_need current_query
  if tr.1 then
    ([{ author := "FollowUpSpecialist", text := connect_text,
        transfer_to_agent := some tr.2 }], st)
  else
    let st1 := { st with last_active_agent := "FollowUpSpecialist" }
    let fc : FollowupContext :=
      match st1.followup_context with
      | some fc => fc
      | none => {}
    let fc := { fc with followup_count := fc.followup_count + 1 }
    let st2 := { st1 with followup_context := some fc }
    let intro : AgentEvent :=
      { author := "FollowUpSpecialist",
        text := ("Let me help you with that follow-up question based on " ++
                 "our previous conversation...").toList }
    let st3 := { st2 with
      followup_context := some { fc with last_handled := some current_query } }
    (intro :: llmEvents, st3)

/-- `TicketSpecialist._run_async_impl`. -/
def ticketTurn (st : SessionState) (llmEvents : List AgentEvent) :
    List AgentEvent × SessionState :=
  let current_query := st.current_query
  let tr := ticket_should_transfer_control current_query
  if tr.1 then
    ([{ author := "TicketSpecialist", text := connect_text,
        transfer_to_agent := some tr.2 }], st)
  else
    let st1 := { st with
      last_active_agent := "TicketSpecialist",
      conversation_context := "ticket" }
    let tc : TicketContext :=
      match st1.ticket_context with
      | some tc => tc
      | none => {}
    let tc := { tc with previous_queries := tc.previous_queries ++ [current_query] }
    let st2 := { st1 with ticket_context := some tc }
    let is_followup := decide (1 < st2.conversation_history.length) &&
      !(st2.transfer_reason = "ticket_analysis")
    let intro : AgentEvent :=
      if is_followup then
        { author := "TicketSpecialist",
          text := ("Let me continue the ticket analysis based on your " ++
                   "follow-up question...").toList }
      else
        { author := "TicketSpecialist",
          text := "🎫 Starting ticket analysis and search...".toList }
    let st3 := { st2 with
      ticket_context := some { tc with analysis_completed := some true } }
    (intro :: llmEvents, st3)

/-- `PushTroubleshootAgent._run_async_impl` (same structure as the technical
specialist; shares the `technical_context` block and the `"technical"`
conversation context, with its own author name and initial message). -/
def pushTurn (st : SessionState) (llmEvents : List AgentEvent) :
    List AgentEvent × SessionState :=
  let current_query := st.current_query
  let tr := technical_should_transfer_control current_query
  if tr.1 then
    ([{ author := "PushTroubleshootAgent", text := connect_text,
        transfer_to_agent := some tr.2 }], st)
  else
    let st1 := { st with
      last_active_agent := "PushTroubleshootAgent",
      conversation_context := "technical" }
    let tc : TechnicalContext :=
      match st1.technical_context with
      | some tc => tc
      | none => {}
    let tc := { tc with previous_queries := tc.previous_queries ++ [current_query] }
    let st2 := { st1 with technical_context := some tc }
    let is_followup := decide (1 < st2.conversation_history.length) &&
      !(st2.transfer_reason = "technical_issue")
    let intro : AgentEvent :=
      if is_followup then
        { author := "PushTroubleshootAgent",
          text := ("Let me continue our technical investigation with " ++
                   "your follow-up question...").toList }
      else
        { author := "PushTroubleshootAgent",
          text := ("🔍 Starting technical investigation of your push " ++
                   "issue...").toList }
    let st3 := { st2 with
      technical_context := some { tc with investigation_completed := some true } }
    (intro :: llmEvents, st3)

/-- `WhatsAppTroubleshootAgent._run_async_impl` (verbatim copy of the
technical specialist's run logic with its own author name). -/
def whatsappTurn (st : SessionState) (llmEvents : List AgentEvent) :
    List AgentEvent × SessionState :=
  let current_query := st.current_query
  let tr := technical_should_transfer_control current_query
  if tr.1 then
    ([{ author := "WhatsAppTroubleshootAgent", text := connect_text,
        transfer_to_agent := some tr.2 }], st)
  else
    let st1 := { st with
      last_active_agent := "WhatsAppTroubleshootAgent",
      conversation_context := "technical" }
    let tc : TechnicalContext :=
      match st1.technical_context with
      | some tc => tc
      | none => {}
    let tc := { tc with previous_queries := tc.previous_queries ++ [current_query] }
    let st2 := { st1 with technical_context := some tc }
    let is_followup := decide (1 < st2.conversation_history.length) &&
      !(st2.transfer_reason = "technical_issue")
    let intro : AgentEvent :=
      if is_followup then
        { author := "WhatsAppTroubleshootAgent",
          text := ("Let me continue our technical investigation with " ++
                   "your follow-up question...").toList }
      else
        { author := "WhatsAppTroubleshootAgent",
          text := "🔍 Starting technical investigation of your issue...".toList }
    let st3 := { st2 with
      technical_context := some { tc with investigation_completed := some true } }
    (intro :: llmEvents, st3)

/-- `ConversationManager._handle_greeting` response text. -/
def greeting_response : List Char :=
  ("Hello! I\x27m your MoEngage Support Assistant. I can help you with:\n\n" ++
   "🔧 **Technical Issues**: Campaign delivery, API errors, debugging\n" ++
   "📚 **Knowledge & Guides**: How-to guides, feature explanations, setup\n" ++
   "🎫 **Ticket Analysis**: Zendesk ticket summaries and analysis\n" ++
   "💬 **Follow-up Questions**: Clarifications and additional help\n\n" ++
   "What can I assist you with today?").toList

/-- `ConversationManager._handle_clarification` response text. -/
def clarification_response : List Char :=
  ("I\x27d be happy to help you! However, I need a bit more information " ++
   "to provide the best assistance.\n\nCould you please provide more " ++
   "details about:\n• What specific issue are you experiencing?\n• Which " ++
   "feature or campaign is affected?\n• Any error messages you\x27ve " ++
   "seen?\n• What you\x27re trying to accomplish?\n\nThe more details " ++
   "you can share, the better I can help you!").toList

/-- `ConversationManager._handle_general` response text. -/
def general_response : List Char :=
  ("I understand you have a question. Let me help you find the right " ++
   "information.\n\nBased on your query, I can:\n• Search our knowledge " ++
   "base and documentation\n• Look up technical troubleshooting guides\n" ++
   "• Analyze support tickets and historical solutions\n• Provide " ++
   "step-by-step guidance\n\nCould you provide a bit more context about " ++
   "what you\x27re looking for? This will help me direct you to the most " ++
   "relevant specialist.").toList

/-- `ConversationManager._run_async_impl` for one turn: update the session
state with the user query, classify, and either answer locally or emit a
transfer event.  `name` is the agent name given at construction. -/
def conversation_manager_turn (name : String) (st : SessionState)
    (user_query : List Char) : List AgentEvent × SessionState :=
  let entry : HistoryEntry :=
    { role := "user", content := user_query,
      timestamp := Nat.repr st.message_count }
  let st0 := { st with
    current_query := user_query,
    conversation_history := st.conversation_history ++ [entry] }
  let intent := classify_intent (strip (lowerL user_query)) st0
  if intent = "greeting" then
    ([{ author := name, text := greeting_response }],
     { st0 with
       conversation_context := "greeting", last_active_agent := name })
  else if intent = "followup" then
    ([{ author := name,
        text := "Let me help you with that follow-up question...".toList,
        transfer_to_agent := some "FollowUpSpecialist" }],
     { st0 with transfer_reason := "followup_question" })
  else if intent = "knowledge_search" then
    ([{ author := name,
        text := "I\x27ll search our knowledge base for you...".toList,
        transfer_to_agent := some "KnowledgeSpecialist" }],
     { st0 with
       conversation_context := "knowledge",
       transfer_reason := "knowledge_search" })
  else if intent = "technical_troubleshooting" then
    ([{ author := name,
        text := "I\x27ll investigate this technical issue for you...".toList,
        transfer_to_agent := some "TechnicalTroubleshootAgent" }],
     { st0 with
       conversation_context := "technical",
       transfer_reason := "technical_issue" })
  else if intent = "ticket_analysis" then
    ([{ author := name,
        text := "I\x27ll analyze that ticket for you...".toList,
        transfer_to_agent := some "TicketSpecialist" }],
     { st0 with
       conversation_context := "ticket",
       transfer_reason := "ticket_analysis" })
  else if intent = "clarification" then
    ([{ author := name, text := clarification_response }],
     { st0 with
       conversation_context := "clarification",
       last_active_agent := name })
  else
    ([{ author := name, text := general_response }],
     { st0 with
       conversation_context := "general",
       last_active_agent := name })

/-! ## Addressable agent set
The conversational architecture of `agent.py`: the root
`LlmConversationManager` is constructed with the name
`"MoEngageSupportChatManager"`, and `specialist_agents` lists the agents
that can receive control via `transfer_to_agent`. -/

/-- Names of the root agent and the six specialists constructed in
`agent.py` (`root_agent` plus `specialist_agents`). -/
def addressable_agents : List String :=
  ["MoEngageSupportChatManager", "TechnicalTroubleshootAgent",
   "KnowledgeSpecialist", "FollowUpSpecialist", "TicketSpecialist",
   "PushTroubleshootAgent", "WhatsAppTroubleshootAgent"]

/-! ## Synthesis Engine
Translation of `solution_utils.analyze_root_cause`.  The
`datetime.now().strftime(...)` timestamp that the Python function embeds in
the matched-categories report is supplied as the extra argument `now`. -/

/-- The knowledge-blob category table of `analyze_root_cause`: each row is
`(keyword set, root cause entry, contributing factor note)`, in source
order. -/
def knowledge_issue_table : List (List (List Char) × List Char × List Char) :=
  [(["delivery".toList, "failed".toList, "not delivered".toList,
     "bounce".toList],
    "Message delivery failure".toList,
    "Delivery issues identified in knowledge base".toList),
   (["rate limit".toList, "throttle".toList, "quota".toList,
     "limit exceeded".toList],
    "API rate limiting".toList,
    "Rate limiting constraints mentioned in documentation".toList),
   (["template".toList, "approval".toList, "rejected".toList,
     "not approved".toList],
    "Template approval issues".toList,
    "Template-related problems found in knowledge base".toList),
   (["webhook".toList, "callback".toList, "status update".toList],
    "Webhook/status update issues".toList,
    "Webhook configuration problems identified".toList),
   (["phone number".toList, "invalid".toList, "format".toList,
     "country code".toList],
    "Phone number formatting issues".toList,
    "Phone number validation problems documented".toList)]

/-- The execution-blob category table of `analyze_root_cause`, in source
order. -/
def execution_issue_table : List (List (List Char) × List Char × List Char) :=
  [(["error".toList, "failed".toList, "exception".toList,
     "timeout".toList],
    "Technical execution errors".toList,
    "Error conditions detected in campaign logs".toList),
   (["status: failed".toList, "delivery_status: failed".toList],
    "Campaign delivery failure".toList,
    "Failed delivery status in campaign data".toList),
   (["no recipients".toList, "empty audience".toList,
     "zero users".toList],
    "Audience targeting issues".toList,
    "No valid recipients found in campaign execution".toList),
   (["configuration".toList, "setup".toList,
     "missing parameter".toList],
    "Campaign configuration issues".toList,
    "Configuration problems identified in execution data".toList)]

/-- The `(root_causes, contributing_factors)` entries one blob contributes:
guarded by `if blob and blob.strip():`, then one `(cause, factor)` pair per
keyword set matching the lower-cased blob, in table order. -/
def blobPairs (blob : List Char)
    (table : List (List (List Char) × List Char × List Char)) :
    List (List Char × List Char) :=
  if blob ≠ [] ∧ strip blob ≠ [] then
    let blob_lower := lowerL blob
    table.filterMap (fun row =>
      if row.1.any (fun term => containsSub term blob_lower) then
        some row.2
      else none)
  else []

/-- The `root_causes`/`contributing_factors` accumulation of
`analyze_root_cause`: knowledge findings scanned first, then execution
results. -/
def root_cause_pairs (knowledge execution : List Char) :
    List (List Char × List Char) :=
  blobPairs knowledge knowledge_issue_table ++
  blobPairs execution execution_issue_table

/-- The fixed "Insufficient data" degraded report of `analyze_root_cause`. -/
def insufficient_data_report : List Char :=
  ("**ROOT CAUSE ANALYSIS:**\n\n**Status:** Insufficient data for " ++
   "comprehensive analysis\n\n**Primary Issue:** Unable to determine root " ++
   "cause due to limited information available.\n\n**Analysis Summary:**\n" ++
   "- No significant findings from knowledge base search\n- No detailed " ++
   "execution data available\n- Requires additional investigation or user " ++
   "input to proceed\n\n**Recommendation:** Gather more specific " ++
   "information about the campaign issue, including error messages, " ++
   "campaign IDs, or specific symptoms.").toList

/-- The fixed "No clear root cause" degraded report of
`analyze_root_cause`. -/
def no_clear_root_cause_report : List Char :=
  ("**ROOT CAUSE ANALYSIS:**\n\n**Status:** No clear root cause " ++
   "identified\n\n**Analysis Summary:**\n- Information gathered but no " ++
   "specific issues pattern-matched\n- May require manual review of " ++
   "findings\n- Could be a novel issue not covered in existing knowledge " ++
   "base\n\n**Available Information:**\n- Knowledge findings available " ++
   "but no clear issues identified\n- Execution data reviewed but no " ++
   "obvious problems detected").toList

/-- The `for i, cause in enumerate(root_causes, 1)` loop of
`analyze_root_cause`: one `"{i}. **{cause}**\n"` line per cause. -/
def numbered_causes : List (List Char) → Nat → List Char
  | [], _ => []
  | cause :: rest, i =>
      (Nat.repr i).toList ++ ". **".toList ++ cause ++ "**\n".toList ++
      numbered_causes rest (i + 1)

/-- The contributing-factors loop of `analyze_root_cause`: one
`"• {factor}\n"` line per factor. -/
def factor_bullets : List (List Char) → List Char
  | [] => []
  | factor :: rest => "• ".toList ++ factor ++ "\n".toList ++
      factor_bullets rest

/-- The matched-categories report of `analyze_root_cause`: header, cause
count, numbered causes, contributing factors, confidence
(`'High' if len(root_causes) >= 2 else 'Medium'`) and timestamp. -/
def formatted_report (causes factors : List (List Char)) (now : List Char) :
    List Char :=
  "**ROOT CAUSE ANALYSIS:**\n\n".toList ++
  "**Primary Root Causes Identified:** ".toList ++
  (Nat.repr causes.length).toList ++ "\n\n".toList ++
  numbered_causes causes 1 ++
  "\n**Contributing Factors:**\n".toList ++
  factor_bullets factors ++
  "\n**Analysis Confidence:** ".toList ++
  (if 2 ≤ causes.length then "High".toList else "Medium".toList) ++
  "\n**Analysis Timestamp:** ".toList ++ now

/-- `solution_utils.analyze_root_cause` (with the wall-clock timestamp as
the explicit argument `now`).  Total by construction: every input falls
into the insufficient-data, no-clear-root-cause or formatted-report case. -/
def analyze_root_cause (knowledge execution now : List Char) : List Char :=
  let pairs := root_cause_pairs knowledge execution
  if pairs = [] then
    if strip knowledge = [] ∧ strip execution = [] then
      insufficient_data_report
    else
      no_clear_root_cause_report
  else
    formatted_report (pairs.map Prod.fst) (pairs.map Prod.snd) now


/-- A function-call fragment with the given name. -/
def fcPart (name : String) : Part := { function_call := some name }

/-- Whether `process_planning_response` keeps a function-call fragment:
`part.function_call is not None` with a truthy name. -/
def has_named_call (p : Part) : Bool :=
  match p.function_call with
  | some name => !(name = "")
  | none => false

/-- An event sequence in which a transfer action can only appear as the
final event: the §3 "a transfer action, once emitted, is terminal for that
agent's turn" ordering guarantee. -/
def transfer_terminal (events : List AgentEvent) : Prop :=
  ∀ i e, events.get? i = some e → e.transfer_to_agent ≠ none →
    i + 1 = events.length

/-! ## Lemmas about the string primitives -/

theorem containsSub_iff (pat s : List Char) :
    containsSub pat s = true ↔ ∃ j, pat.isPrefixOf (s.drop j) = true := by
  induction s with
  | nil =>
      simp only [containsSub]
      constructor
      · intro h; exact ⟨0, by simpa using h⟩
      · rintro ⟨j, hj⟩; simpa using hj
  | cons c rest ih =>
      simp only [containsSub, Bool.or_eq_true, ih]
      constructor
      · rintro (h | ⟨j, hj⟩)
        · exact ⟨0, by simpa using h⟩
        · exact ⟨j + 1, by simpa using hj⟩
      · rintro ⟨j, hj⟩
        cases j with
        | zero => exact Or.inl (by simpa using hj)
        | succ j => exact Or.inr ⟨j, by simpa using hj⟩

theorem lastOccur_none (pat s : List Char) (h : lastOccur pat s = none) :
    containsSub pat s = false := by
  induction s with
  | nil =>
      simp only [lastOccur] at h
      by_cases hp : pat.isPrefixOf ([] : List Char) = true
      · simp [hp] at h
      · simp only [containsSub]
        exact Bool.eq_false_iff.2 hp
  | cons c rest ih =>
      simp only [lastOccur] at h
      cases hrest : lastOccur pat rest with
      | some j => rw [hrest] at h; simp at h
      | none =>
          rw [hrest] at h
          by_cases hp : pat.isPrefixOf (c :: rest) = true
          · simp [hp] at h
          · simp only [containsSub, Bool.or_eq_false_iff]
            exact ⟨Bool.eq_false_iff.2 hp, ih hrest⟩

theorem lastOccur_isSome_of_contains (pat s : List Char)
    (h : containsSub pat s = true) : ∃ i, lastOccur pat s = some i := by
  cases ho : lastOccur pat s with
  | none => rw [lastOccur_none pat s ho] at h; cases h
  | some i => exact ⟨i, rfl⟩

theorem lastOccur_isPrefixOf (pat s : List Char) (i : Nat)
    (h : lastOccur pat s = some i) : pat.isPrefixOf (s.drop i) = true := by
  induction s generalizing i with
  | nil =>
      simp only [lastOccur] at h
      by_cases hp : pat.isPrefixOf ([] : List Char) = true
      · simp [hp] at h
        simpa [← h] using hp
      · simp [hp] at h
  | cons c rest ih =>
      simp only [lastOccur] at h
      cases hrest : lastOccur pat rest with
      | some j =>
          rw [hrest] at h
          simp only [Option.some.injEq] at h
          subst h
          simpa using ih j hrest
      | none =>
          rw [hrest] at h
          by_cases hp : pat.isPrefixOf (c :: rest) = true
          · simp [hp] at h
            simpa [← h] using hp
          · simp [hp] at h

theorem lastOccur_last (pat s : List Char) (i : Nat) (hpat : pat ≠ [])
    (h : lastOccur pat s = some i) :
    ∀ j, pat.isPrefixOf (s.drop j) = true → j ≤ i := by
  induction s generalizing i with
  | nil =>
      intro j hj
      simp only [List.drop_nil] at hj
      have : pat = [] := by simpa [List.isPrefixOf_iff_prefix] using hj
      exact absurd this hpat
  | cons c rest ih =>
      intro j hj
      simp only [lastOccur] at h
      cases hrest : lastOccur pat rest with
      | some k =>
          rw [hrest] at h
          simp only [Option.some.injEq] at h
          subst h
          cases j with
          | zero => exact Nat.zero_le _
          | succ j =>
              have := ih k hrest j (by simpa using hj)
              omega
      | none =>
          rw [hrest] at h
          by_cases hp : pat.isPrefixOf (c :: rest) = true
          · simp only [hp, if_true, Option.some.injEq] at h
            subst h
            cases j with
            | zero => exact Nat.le_refl 0
            | succ j =>
                exfalso
                have hc : containsSub pat rest = true :=
                  (containsSub_iff pat rest).2 ⟨j, by simpa using hj⟩
                rw [lastOccur_none pat rest hrest] at hc
                cases hc
          · simp [hp] at h

/-! ## Claim C3 -/

/-- Counterexample to claim C3: with `conversation_context = "technical"`
and a technical specialist as `last_active_agent`, the 5-character utterance
`"error"` — which contains the technical-context keyword `"error"` — is
classified `"technical_troubleshooting"`, not `"followup"`: the
context-continuation check requires `len(query_lower) > 5`, so utterances of
length 5 or less fall through to the domain keyword sets. -/
theorem c3_counterexample :
    classify_intent "error".toList
      { conversation_context := "technical",
        last_active_agent := "TechnicalTroubleshootAgent" } =
      "technical_troubleshooting" ∧
    ("technical_troubleshooting" : String) ≠ "followup" := by
  decide

/-- Claim C3 (amended): when `conversation_context = "technical"` and
`last_active_agent` is set, an utterance that contains a technical-context
keyword classifies as `"followup"` (never `"technical_troubleshooting"`)
provided its lower-cased trimmed text is longer than 5 characters and the
higher-priority greeting branch does not fire. -/
theorem c3_context_continuation (q : List Char) (st : SessionState)
    (hctx : st.conversation_context = "technical")
    (hagent : st.last_active_agent ≠ "")
    (hlen : 5 < q.length)
    (hgreet : ¬(greeting_patterns.any (fun g => containsSub g q) = true ∧
      q.length < 25))
    (hkw : technical_context_keywords.any (fun k => containsSub k q) = true) :
    classify_intent q st = "followup" ∧
    classify_intent q st ≠ "technical_troubleshooting" := by
  have hg : (greeting_patterns.any (fun g => containsSub g q) &&
      decide (q.length < 25)) = false := by
    by_cases hga : greeting_patterns.any (fun g => containsSub g q) = true
    · by_cases h25 : q.length < 25
      · exact absurd ⟨hga, h25⟩ hgreet
      · simp [h25]
    · simp [Bool.eq_false_iff.2 hga]
  have hmain : classify_intent q st = "followup" := by
    by_cases hf : followup_patterns.any (fun p => containsSub p q) = true
    · simp [classify_intent, hg, hf, hctx]
    · simp [classify_intent, hg, Bool.eq_false_iff.2 hf, hctx, hagent, hlen,
        context_keywords, hkw]
  exact ⟨hmain, by simp [hmain]⟩

/-- Witness for `c3_context_continuation` at the concrete utterance
`"campaign delivery broken"` in a technical-context session. -/
theorem c3_context_continuation_witness :
    classify_intent "campaign delivery broken".toList
      { conversation_context := "technical",
        last_active_agent := "TechnicalTroubleshootAgent" } = "followup" :=
  (c3_context_continuation "campaign delivery broken".toList
    { conversation_context := "technical",
      last_active_agent := "TechnicalTroubleshootAgent" }
    rfl (by decide) (by decide) (by decide) (by decide)).1

/-! ## Claim C5 -/

/-- Claim C5: whenever a specialist's transfer-decision function returns
`(True, target)` for the current query, the specialist's turn leaves the
session state exactly as it was (the transfer check runs before any state
mutation); and when the specialist retains control it completes its
context-block update. -/
theorem c5_transfer_preserves_state (st : SessionState)
    (llm : List AgentEvent) :
    ((technical_should_transfer_control st.current_query).1 = true →
      (technicalTurn st llm).2 = st) ∧
    ((knowledge_should_transfer_control st.current_query).1 = true →
      (knowledgeTurn st llm).2 = st) ∧
    ((followup_analyze_transfer_need st.current_query).1 = true →
      (followupTurn st llm).2 = st) ∧
    ((ticket_should_transfer_control st.current_query).1 = true →
      (ticketTurn st llm).2 = st) ∧
    ((technical_should_transfer_control st.current_query).1 = true →
      (pushTurn st llm).2 = st ∧ (whatsappTurn st llm).2 = st) ∧
    ((technical_should_transfer_control st.current_query).1 = false →
      ∃ tc, (technicalTurn st llm).2.technical_context = some tc ∧
        tc.investigation_completed = some true) ∧
    ((followup_analyze_transfer_need st.current_query).1 = false →
      ∃ fc, (followupTurn st llm).2.followup_context = some fc ∧
        fc.last_handled = some st.current_query) := by
  refine ⟨?_, ?_, ?_, ?_, ?_, ?_, ?_⟩
  · intro h; simp [technicalTurn, h]
  · intro h; simp [knowledgeTurn, h]
  · intro h; simp [followupTurn, h]
  · intro h; simp [ticketTurn, h]
  · intro h; exact ⟨by simp [pushTurn, h], by simp [whatsappTurn, h]⟩
  · intro h
    simp only [technicalTurn, h, Bool.false_eq_true, if_false]
    exact ⟨_, rfl, rfl⟩
  · intro h
    simp only [followupTurn, h, Bool.false_eq_true, if_false]
    exact ⟨_, rfl, rfl⟩

/-- Witness for `c5_transfer_preserves_state`: a `"thanks"` query makes the
technical specialist transfer without touching the session state, and a
`"switch topic"` query does the same for the follow-up specialist. -/
theorem c5_transfer_preserves_state_witness :
    (technicalTurn { current_query := "thanks".toList } []).2 =
      { current_query := "thanks".toList } ∧
    (followupTurn { current_query := "switch topic".toList } []).2 =
      { current_query := "switch topic".toList } :=
  ⟨(c5_transfer_preserves_state { current_query := "thanks".toList } []).1
      (by decide),
   (c5_transfer_preserves_state { current_query := "switch topic".toList }
      []).2.2.1 (by decide)⟩

/-! ## Claim C6 -/

/-- Claim C6 is a code bug: the knowledge, follow-up and ticket specialists
return the transfer target `"ConversationManager"` for thanks/topic-change
queries, but no constructed agent bears that name — the addressable set of
`agent.py` contains the root `"MoEngageSupportChatManager"` (used correctly
by the technical specialist) and the six specialists. -/
theorem c6_unaddressable_transfer_target :
    knowledge_should_transfer_control "thanks".toList =
      (true, "ConversationManager") ∧
    followup_analyze_transfer_need "switch topic".toList =
      (true, "ConversationManager") ∧
    ticket_should_transfer_control "thanks".toList =
      (true, "ConversationManager") ∧
    "ConversationManager" ∉ addressable_agents ∧
    technical_should_transfer_control "thanks".toList =
      (true, "MoEngageSupportChatManager") ∧
    "MoEngageSupportChatManager" ∈ addressable_agents := by
  decide

/-! ## Claim C9 -/

/-- Claim C9: a lower-cased trimmed utterance shorter than 5 characters that
matches no trigger of a higher-priority label classifies as
`"clarification"`, and an utterance matching nothing at all and of length at
least 5 falls through to the default label — `"general"` for
`ConversationManager._classify_intent` and `"knowledge_only"` for
`WhatsAppSupportOrchestrator._classify_user_intent`. -/
theorem c9_classifier_fallbacks :
    (∀ (q : List Char) (st : SessionState), strip q = q → q.length < 5 →
      greeting_patterns.any (fun p => containsSub p q) = false →
      followup_patterns.any (fun p => containsSub p q) = false →
      ticket_patterns.any (fun p => containsSub p q) = false →
      technical_patterns.any (fun p => containsSub p q) = false →
      knowledge_patterns.any (fun p => containsSub p q) = false →
      classify_intent q st = "clarification") ∧
    (∀ (q : List Char) (st : SessionState), strip q = q → 5 ≤ q.length →
      greeting_patterns.any (fun p => containsSub p q) = false →
      followup_patterns.any (fun p => containsSub p q) = false →
      technical_context_keywords.any (fun p => containsSub p q) = false →
      knowledge_context_keywords.any (fun p => containsSub p q) = false →
      ticket_context_keywords.any (fun p => containsSub p q) = false →
      ticket_patterns.any (fun p => containsSub p q) = false →
      technical_patterns.any (fun p => containsSub p q) = false →
      knowledge_patterns.any (fun p => containsSub p q) = false →
      classify_intent q st = "general") ∧
    (∀ q : List Char, strip q = q → q.length < 5 →
      orch_greeting_patterns.any (fun p => containsSub p q) = false →
      orch_technical_patterns.any (fun p => containsSub p q) = false →
      orch_knowledge_patterns.any (fun p => containsSub p q) = false →
      classify_user_intent q = "clarification") ∧
    (∀ q : List Char, strip q = q → 5 ≤ q.length →
      orch_greeting_patterns.any (fun p => containsSub p q) = false →
      orch_technical_patterns.any (fun p => containsSub p q) = false →
      orch_knowledge_patterns.any (fun p => containsSub p q) = false →
      classify_user_intent q = "knowledge_only") := by
  refine ⟨?_, ?_, ?_, ?_⟩
  · intro q st hstrip hlen hg hf ht htech hk
    have h5 : ¬ 5 < q.length := by omega
    simp [classify_intent, hg, hf, ht, htech, hk, h5, hstrip, hlen]
  · intro q st hstrip hlen hg hf hck hckk hckt ht htech hk
    have h5 : ¬ (strip q).length < 5 := by rw [hstrip]; omega
    simp only [classify_intent, hg, hf, ht, htech, hk, h5]
    have hctx : (match context_keywords st.conversation_context with
        | some kws => kws.any (fun k => containsSub k q)
        | none => false) = false := by
      unfold context_keywords
      split_ifs with h1 h2 h3 <;> simp [hck, hckk, hckt]
    simp [hctx, h5]
  · intro q hstrip hlen hg ht hk
    simp [classify_user_intent, hg, ht, hk, hstrip, hlen]
  · intro q hstrip hlen hg ht hk
    have h5 : ¬ (strip q).length < 5 := by rw [hstrip]; omega
    simp [classify_user_intent, hg, ht, hk, h5]

/-- Witness for `c9_classifier_fallbacks`: `"ok"` (length 2, no trigger)
classifies as `"clarification"` at both classifiers, and `"zzzzzz"` (length
6, no trigger) falls through to `"general"` / `"knowledge_only"`. -/
theorem c9_classifier_fallbacks_witness :
    classify_intent "ok".toList {} = "clarification" ∧
    classify_intent "zzzzzz".toList {} = "general" ∧
    classify_user_intent "ok".toList = "clarification" ∧
    classify_user_intent "zzzzzz".toList = "knowledge_only" :=
  ⟨c9_classifier_fallbacks.1 "ok".toList {} (by decide) (by decide)
      (by decide) (by decide) (by decide) (by decide) (by decide),
   c9_classifier_fallbacks.2.1 "zzzzzz".toList {} (by decide) (by decide)
      (by decide) (by decide) (by decide) (by decide) (by decide) (by decide)
      (by decide) (by decide),
   c9_classifier_fallbacks.2.2.1 "ok".toList (by decide) (by decide)
      (by decide) (by decide) (by decide),
   c9_classifier_fallbacks.2.2.2 "zzzzzz".toList (by decide) (by decide)
      (by decide) (by decide) (by decide)⟩

/-! ## Claim C10 -/

/-- Claim C10: greeting detection is substring-based with a length cap —
any lower-cased trimmed utterance shorter than 25 characters (20 for the
orchestrator) containing a greeting token anywhere classifies as
`"greeting"` (e.g. `"this is broken"`, which contains `"hi"` inside
`"this"`), and `ConversationManager` never classifies an utterance of 25 or
more characters as `"greeting"`. -/
theorem c10_greeting_substring (q : List Char) (st : SessionState) :
    (greeting_patterns.any (fun g => containsSub g q) = true →
      q.length < 25 → classify_intent q st = "greeting") ∧
    (25 ≤ q.length → classify_intent q st ≠ "greeting") ∧
    (orch_greeting_patterns.any (fun g => containsSub g q) = true →
      q.length < 20 → classify_user_intent q = "greeting") ∧
    classify_intent "this is broken".toList {} = "greeting" := by
  refine ⟨?_, ?_, ?_, by decide⟩
  · intro hg h25
    simp [classify_intent, hg, h25]
  · intro h25
    have hlt : decide (q.length < 25) = false := decide_eq_false (by omega)
    simp only [classify_intent, hlt, Bool.and_false, Bool.false_eq_true,
      if_false]
    split_ifs <;> decide
  · intro hg h20
    simp [classify_user_intent, hg, h20]

/-- Witness for `c10_greeting_substring`: `"hello!"` is a greeting,
`"hello this campaign failed"` (26 characters) is not, and `"hey"` is a
greeting for the orchestrator. -/
theorem c10_greeting_substring_witness :
    classify_intent "hello!".toList {} = "greeting" ∧
    classify_intent "hello this campaign failed".toList {} ≠ "greeting" ∧
    classify_user_intent "hey".toList = "greeting" :=
  ⟨(c10_greeting_substring "hello!".toList {}).1 (by decide) (by decide),
   (c10_greeting_substring "hello this campaign failed".toList {}).2.1
      (by decide),
   (c10_greeting_substring "hey".toList {}).2.2.1 (by decide) (by decide)⟩

/-! ## Claim C4 -/

theorem transfer_terminal_singleton (e : AgentEvent) :
    transfer_terminal [e] := by
  intro i x hget _
  cases i with
  | zero => rfl
  | succ i => simp at hget

theorem transfer_terminal_of_all_none (events : List AgentEvent)
    (h : ∀ ev ∈ events, ev.transfer_to_agent = none) :
    transfer_terminal events := by
  intro i e hget htr
  exact absurd (h e (List.get?_mem hget)) htr

/-- Claim C4: in every agent's turn — the `ConversationManager` root and
each of the six specialists — an event carrying a
`transfer_to_agent` action is the last event that agent yields: no further
events from that agent follow in the same turn.  `hllm` states that the
fragments streamed back by the external completion backend
(`super()._run_async_impl`) carry no transfer action. -/
theorem c4_transfer_is_terminal (name : String) (st : SessionState)
    (q : List Char) (llm : List AgentEvent)
    (hllm : ∀ ev ∈ llm, ev.transfer_to_agent = none) :
    transfer_terminal (conversation_manager_turn name st q).1 ∧
    transfer_terminal (technicalTurn st llm).1 ∧
    transfer_terminal (knowledgeTurn st llm).1 ∧
    transfer_terminal (followupTurn st llm).1 ∧
    transfer_terminal (ticketTurn st llm).1 ∧
    transfer_terminal (pushTurn st llm).1 ∧
    transfer_terminal (whatsappTurn st llm).1 := by
  have hcons : ∀ (e : AgentEvent), e.transfer_to_agent = none →
      transfer_terminal (e :: llm) := by
    intro e he
    apply transfer_terminal_of_all_none
    intro ev hev
    rcases List.mem_cons.1 hev with h | h
    · rw [h]; exact he
    · exact hllm ev h
  refine ⟨?_, ?_, ?_, ?_, ?_, ?_, ?_⟩
  · simp only [conversation_manager_turn]
    split_ifs <;> exact transfer_terminal_singleton _
  · simp only [technicalTurn]
    split_ifs with h1 h2
    · exact transfer_terminal_singleton _
    · exact hcons _ rfl
    · exact hcons _ rfl
  · simp only [knowledgeTurn]
    split_ifs with h1 h2
    · exact transfer_terminal_singleton _
    · exact hcons _ rfl
    · exact hcons _ rfl
  · simp only [followupTurn]
    split_ifs with h1
    · exact transfer_terminal_singleton _
    · exact hcons _ rfl
  · simp only [ticketTurn]
    split_ifs with h1 h2
    · exact transfer_terminal_singleton _
    · exact hcons _ rfl
    · exact hcons _ rfl
  · simp only [pushTurn]
    split_ifs with h1 h2
    · exact transfer_terminal_singleton _
    · exact hcons _ rfl
    · exact hcons _ rfl
  · simp only [whatsappTurn]
    split_ifs with h1 h2
    · exact transfer_terminal_singleton _
    · exact hcons _ rfl
    · exact hcons _ rfl

/-- Witness for `c4_transfer_is_terminal` at a concrete turn: the root
manager handling `"hi"` and the technical specialist transferring on
`"thanks"`. -/
theorem c4_transfer_is_terminal_witness :
    transfer_terminal
      (conversation_manager_turn "ConversationManager" {} "hi".toList).1 ∧
    transfer_terminal
      (technicalTurn { current_query := "thanks".toList } []).1 :=
  ⟨(c4_transfer_is_terminal "ConversationManager" {} "hi".toList []
      (by simp)).1,
   (c4_transfer_is_terminal "ConversationManager"
      { current_query := "thanks".toList } "hi".toList []
      (by simp)).2.1⟩

/-! ## Claim C1 -/

/-- Claim C1: a text fragment processed before any function-call run is
split at the *last* occurrence of the final-answer marker when it contains
one — the prefix up to and including the marker (always non-empty) is
emitted marked as thought, the suffix is emitted visible when non-empty; a
fragment without the marker but with a reasoning marker is emitted whole as
thought, otherwise whole visible.  The concrete sequence
`[text("a /*THINK*/"), text("b /*FINAL_ANSWER*/ c")]` produces exactly
`[hidden("a /*THINK*/"), hidden("b /*FINAL_ANSWER*/"), visible(" c")]`. -/
theorem c1_response_stream_split (s : List Char) :
    (∀ i, lastOccur FINAL_ANSWER_TAG s = some i →
      FINAL_ANSWER_TAG.isPrefixOf (s.drop i) = true ∧
      (∀ j, FINAL_ANSWER_TAG.isPrefixOf (s.drop j) = true → j ≤ i) ∧
      handleTextPart (textPart s) =
        thoughtPart (s.take (i + FINAL_ANSWER_TAG.length)) ::
        (if s.drop (i + FINAL_ANSWER_TAG.length) ≠ [] then
          [textPart (s.drop (i + FINAL_ANSWER_TAG.length))] else [])) ∧
    (containsSub FINAL_ANSWER_TAG s = false →
      thinking_tags.any (fun t => containsSub t s) = true →
      handleTextPart (textPart s) = [thoughtPart s]) ∧
    (containsSub FINAL_ANSWER_TAG s = false →
      thinking_tags.any (fun t => containsSub t s) = false →
      handleTextPart (textPart s) = [textPart s]) ∧
    process_planning_response
      [textPart "a /*THINK*/".toList,
       textPart "b /*FINAL_ANSWER*/ c".toList] =
      some [thoughtPart "a /*THINK*/".toList,
            thoughtPart "b /*FINAL_ANSWER*/".toList,
            textPart " c".toList] := by
  refine ⟨?_, ?_, ?_, by decide⟩
  · intro i h
    have htag : FINAL_ANSWER_TAG ≠ [] := by decide
    have hpre := lastOccur_isPrefixOf FINAL_ANSWER_TAG s i h
    have hlast := lastOccur_last FINAL_ANSWER_TAG s i htag h
    refine ⟨hpre, hlast, ?_⟩
    have hc : containsSub FINAL_ANSWER_TAG s = true :=
      (containsSub_iff _ _).2 ⟨i, hpre⟩
    have hs : s ≠ [] := by
      rintro rfl
      rw [List.drop_nil] at hpre
      exact absurd hpre (by decide)
    have htake : s.take (i + FINAL_ANSWER_TAG.length) ≠ [] := by
      intro hnil
      rcases List.take_eq_nil_iff.1 hnil with h0 | h0
      · have : FINAL_ANSWER_TAG.length ≠ 0 := by decide
        omega
      · exact hs h0
    have hsplit : splitByLastPattern s FINAL_ANSWER_TAG =
        (s.take (i + FINAL_ANSWER_TAG.length),
         s.drop (i + FINAL_ANSWER_TAG.length)) := by
      simp [splitByLastPattern, h]
    simp only [handleTextPart, textPart, hc, if_true, hsplit]
    rw [if_pos htake]
    simp [markAsThought, htake, thoughtPart]
  · intro hc ht
    have hs : s ≠ [] := by
      rintro rfl
      exact absurd ht (by decide)
    simp only [handleTextPart, textPart, hc, Bool.false_eq_true, if_false,
      ht, if_true]
    simp [markAsThought, hs, thoughtPart]
  · intro hc ht
    simp [handleTextPart, textPart, hc, ht]

/-- Witness for `c1_response_stream_split`, at the three fragment kinds:
a final-answer fragment, a reasoning-marker fragment, and a plain one. -/
theorem c1_response_stream_split_witness :
    handleTextPart (textPart "x/*FINAL_ANSWER*/y".toList) =
      [thoughtPart "x/*FINAL_ANSWER*/".toList, textPart "y".toList] ∧
    handleTextPart (textPart "a /*THINK*/".toList) =
      [thoughtPart "a /*THINK*/".toList] ∧
    handleTextPart (textPart "plain".toList) =
      [textPart "plain".toList] := by
  refine ⟨?_, ?_, ?_⟩
  · have h := ((c1_response_stream_split "x/*FINAL_ANSWER*/y".toList).1 1
      (by decide)).2.2
    rw [h]
    decide
  · exact (c1_response_stream_split "a /*THINK*/".toList).2.1
      (by decide) (by decide)
  · exact (c1_response_stream_split "plain".toList).2.2.1
      (by decide) (by decide)

/-! ## Claim C2 -/

theorem processParts_append_benign (pre l : List Part)
    (hpre : ∀ r ∈ pre, r.function_call = none ∨ r.function_call = some "") :
    processParts (pre ++ l) = processParts pre ++ processParts l := by
  induction pre with
  | nil => simp [processParts]
  | cons r pre ih =>
      have hr := hpre r (List.mem_cons_self r pre)
      have hrest : ∀ x ∈ pre, x.function_call = none ∨
          x.function_call = some "" :=
        fun x hx => hpre x (List.mem_cons_of_mem r hx)
      rcases hr with hr | hr
      · cases htext : r.text with
        | some t =>
            simp only [List.cons_append, processParts, hr, htext,
              List.append_eq, ih hrest, List.append_assoc]
        | none =>
            simp only [List.cons_append, processParts, hr, htext,
              List.append_eq, ih hrest]
      · simp only [List.cons_append, processParts, hr, List.append_eq,
          if_true, ih hrest]

theorem collectRun_of_calls (run : List Part)
    (hrun : ∀ r ∈ run, r.function_call ≠ none) :
    collectRun run = run.filter has_named_call := by
  induction run with
  | nil => rfl
  | cons r run ih =>
      have hr := hrun r (List.mem_cons_self r run)
      have hrest : ∀ x ∈ run, x.function_call ≠ none :=
        fun x hx => hrun x (List.mem_cons_of_mem r hx)
      cases hfc : r.function_call with
      | none => exact absurd hfc hr
      | some m =>
          by_cases hm : m = ""
          · subst hm
            simp [collectRun, hfc, ih hrest, List.filter_cons,
              has_named_call]
          · simp [collectRun, hfc, hm, ih hrest, List.filter_cons,
              has_named_call]

theorem collectRun_stops (run : List Part) (q : Part) (tail : List Part)
    (hrun : ∀ r ∈ run, r.function_call ≠ none)
    (hq : q.function_call = none) :
    collectRun (run ++ q :: tail) = run.filter has_named_call := by
  induction run with
  | nil => simp [collectRun, hq]
  | cons r run ih =>
      have hr := hrun r (List.mem_cons_self r run)
      have hrest : ∀ x ∈ run, x.function_call ≠ none :=
        fun x hx => hrun x (List.mem_cons_of_mem r hx)
      cases hfc : r.function_call with
      | none => exact absurd hfc hr
      | some m =>
          by_cases hm : m = ""
          · subst hm
            simp [collectRun, hfc, ih hrest, List.filter_cons,
              has_named_call]
          · simp [collectRun, hfc, hm, ih hrest, List.filter_cons,
              has_named_call]

/-- Claim C2: the first function-call fragment with a non-empty name starts
a run consisting of it and every immediately following function-call
fragment with a non-empty name (empty-named function-call fragments are
dropped silently and do not end the run); the run ends at the first
non-function-call fragment or at the end of the sequence, and nothing after
the run appears in the output — only the run plus the processed text
fragments that preceded it are preserved. -/
theorem c2_function_call_run_terminal (pre run tail : List Part)
    (p q : Part) (name : String)
    (hpre : ∀ r ∈ pre, r.function_call = none ∨ r.function_call = some "")
    (hp : p.function_call = some name) (hname : name ≠ "")
    (hrun : ∀ r ∈ run, r.function_call ≠ none)
    (hq : q.function_call = none) :
    process_planning_response (pre ++ p :: (run ++ q :: tail)) =
      some (processParts pre ++ p :: run.filter has_named_call) ∧
    process_planning_response (pre ++ p :: run) =
      some (processParts pre ++ p :: run.filter has_named_call) := by
  have hfirst : ∀ l : List Part, processParts (p :: l) = p :: collectRun l := by
    intro l
    simp [processParts, hp, hname]
  constructor
  · have hne : (pre ++ p :: (run ++ q :: tail)).isEmpty = false := by
      simp
    rw [process_planning_response, hne]
    simp only [Bool.false_eq_true, if_false]
    rw [processParts_append_benign pre _ hpre, hfirst,
      collectRun_stops run q tail hrun hq]
  · have hne : (pre ++ p :: run).isEmpty = false := by simp
    rw [process_planning_response, hne]
    simp only [Bool.false_eq_true, if_false]
    rw [processParts_append_benign pre _ hpre, hfirst,
      collectRun_of_calls run hrun]

/-- Witness for `c2_function_call_run_terminal`: a text fragment, a named
call, an empty-named call inside the run, a second named call, then
trailing text — only `[visible("x"), call("tool1"), call("tool2")]`
survives, with the trailing text dropped. -/
theorem c2_function_call_run_terminal_witness :
    process_planning_response
      ([textPart "x".toList] ++ fcPart "tool1" ::
        ([fcPart "", fcPart "tool2"] ++
          textPart "trailing".toList :: [textPart "more".toList])) =
      some [textPart "x".toList, fcPart "tool1", fcPart "tool2"] := by
  have h := (c2_function_call_run_terminal [textPart "x".toList]
    [fcPart "", fcPart "tool2"] [textPart "more".toList]
    (fcPart "tool1") (textPart "trailing".toList) "tool1"
    (by decide) rfl (by decide) (by decide) rfl).1
  rw [h]
  decide

/-! ## Claims C7 and C8 -/

theorem append_ne_of_getElem (pfx rest other : List Char) (n : Nat)
    (hn : n < pfx.length) (hne : pfx[n]? ≠ other[n]?) :
    pfx ++ rest ≠ other := by
  intro h
  apply hne
  rw [← h, List.getElem?_append_left hn]

set_option maxRecDepth 4000 in
theorem formatted_ne_insufficient (causes factors : List (List Char))
    (now : List Char) :
    formatted_report causes factors now ≠ insufficient_data_report := by
  have hshape : formatted_report causes factors now =
      ("**ROOT CAUSE ANALYSIS:**\n\n".toList ++
       "**Primary Root Causes Identified:** ".toList) ++
      ((Nat.repr causes.length).toList ++ ("\n\n".toList ++
       (numbered_causes causes 1 ++ ("\n**Contributing Factors:**\n".toList ++
       (factor_bullets factors ++ ("\n**Analysis Confidence:** ".toList ++
       ((if 2 ≤ causes.length then "High".toList else "Medium".toList) ++
       ("\n**Analysis Timestamp:** ".toList ++ now)))))))) := by
    simp [formatted_report, List.append_assoc]
  rw [hshape]
  exact append_ne_of_getElem _ _ _ 28 (by decide) (by decide)

/-- Claim C7: `analyze_root_cause` is total and degrades instead of
raising — it returns the "Insufficient data" report exactly when both blobs
are empty or whitespace-only, the "No clear root cause" report when no
category matched despite a non-empty blob, and otherwise the formatted
report with one root-cause entry and one contributing-factor note per
matched category. -/
theorem c7_analyze_root_cause_total (knowledge execution now : List Char) :
    (analyze_root_cause knowledge execution now = insufficient_data_report ↔
      strip knowledge = [] ∧ strip execution = []) ∧
    (root_cause_pairs knowledge execution = [] →
      (strip knowledge ≠ [] ∨ strip execution ≠ []) →
      analyze_root_cause knowledge execution now =
        no_clear_root_cause_report) ∧
    (root_cause_pairs knowledge execution ≠ [] →
      analyze_root_cause knowledge execution now =
        formatted_report
          ((root_cause_pairs knowledge execution).map Prod.fst)
          ((root_cause_pairs knowledge execution).map Prod.snd) now ∧
      ((root_cause_pairs knowledge execution).map Prod.fst).length =
        ((root_cause_pairs knowledge execution).map Prod.snd).length) ∧
    (∀ row ∈ knowledge_issue_table, strip knowledge ≠ [] →
      row.1.any (fun term => containsSub term (lowerL knowledge)) = true →
      row.2.1 ∈ (root_cause_pairs knowledge execution).map Prod.fst) ∧
    (∀ row ∈ execution_issue_table, strip execution ≠ [] →
      row.1.any (fun term => containsSub term (lowerL execution)) = true →
      row.2.2 ∈ (root_cause_pairs knowledge execution).map Prod.snd) := by
  refine ⟨⟨?_, ?_⟩, ?_, ?_, ?_, ?_⟩
  · intro h
    by_contra hcon
    by_cases hp : root_cause_pairs knowledge execution = []
    · have hno : analyze_root_cause knowledge execution now =
          no_clear_root_cause_report := by
        simp [analyze_root_cause, hp, hcon]
      rw [hno] at h
      exact absurd h (by decide)
    · have hfor : analyze_root_cause knowledge execution now =
          formatted_report
            ((root_cause_pairs knowledge execution).map Prod.fst)
            ((root_cause_pairs knowledge execution).map Prod.snd) now := by
        simp [analyze_root_cause, hp]
      rw [hfor] at h
      exact formatted_ne_insufficient _ _ _ h
  · rintro ⟨hk, he⟩
    have hpar : root_cause_pairs knowledge execution = [] := by
      simp [root_cause_pairs, blobPairs, hk, he]
    simp [analyze_root_cause, hpar, hk, he]
  · intro hp hne
    have hcon : ¬(strip knowledge = [] ∧ strip execution = []) := by
      tauto
    simp [analyze_root_cause, hp, hcon]
  · intro hp
    exact ⟨by simp [analyze_root_cause, hp], by simp⟩
  · intro row hrow hstrip hmatch
    have hne : knowledge ≠ [] := by
      intro h0
      rw [h0] at hstrip
      exact hstrip (by decide)
    unfold root_cause_pairs
    rw [List.map_append]
    apply List.mem_append_left
    unfold blobPairs
    rw [if_pos ⟨hne, hstrip⟩]
    exact List.mem_map.2 ⟨row.2,
      List.mem_filterMap.2 ⟨row, hrow, by simp [hmatch]⟩, rfl⟩
  · intro row hrow hstrip hmatch
    have hne : execution ≠ [] := by
      intro h0
      rw [h0] at hstrip
      exact hstrip (by decide)
    unfold root_cause_pairs
    rw [List.map_append]
    apply List.mem_append_right
    unfold blobPairs
    rw [if_pos ⟨hne, hstrip⟩]
    exact List.mem_map.2 ⟨row.2,
      List.mem_filterMap.2 ⟨row, hrow, by simp [hmatch]⟩, rfl⟩

/-- Witness for `c7_analyze_root_cause_total`: empty blobs give the
insufficient-data report, a non-matching blob gives the no-clear report,
and a matching blob gives the formatted report. -/
theorem c7_analyze_root_cause_total_witness :
    analyze_root_cause [] [] "ts".toList = insufficient_data_report ∧
    analyze_root_cause "qqq".toList [] "ts".toList =
      no_clear_root_cause_report ∧
    analyze_root_cause "rate limit exceeded".toList [] "ts".toList =
      formatted_report
        ((root_cause_pairs "rate limit exceeded".toList []).map Prod.fst)
        ((root_cause_pairs "rate limit exceeded".toList []).map Prod.snd)
        "ts".toList :=
  ⟨(c7_analyze_root_cause_total [] [] "ts".toList).1.2 (by decide),
   (c7_analyze_root_cause_total "qqq".toList [] "ts".toList).2.1
      (by decide) (by decide),
   ((c7_analyze_root_cause_total "rate limit exceeded".toList []
      "ts".toList).2.2.1 (by decide)).1⟩

/-- Claim C8: in the matched-categories report the analysis confidence is
exactly `High` when at least two categories matched and `Medium` otherwise;
for knowledge findings `"rate limit exceeded"` and empty execution results,
exactly the `"API rate limiting"` category matches and confidence is
`Medium`. -/
theorem c8_confidence (k e now : List Char)
    (h : root_cause_pairs k e ≠ []) :
    analyze_root_cause k e now =
      "**ROOT CAUSE ANALYSIS:**\n\n".toList ++
      "**Primary Root Causes Identified:** ".toList ++
      (Nat.repr (root_cause_pairs k e).length).toList ++ "\n\n".toList ++
      numbered_causes ((root_cause_pairs k e).map Prod.fst) 1 ++
      "\n**Contributing Factors:**\n".toList ++
      factor_bullets ((root_cause_pairs k e).map Prod.snd) ++
      "\n**Analysis Confidence:** ".toList ++
      (if 2 ≤ (root_cause_pairs k e).length then "High".toList
        else "Medium".toList) ++
      "\n**Analysis Timestamp:** ".toList ++ now ∧
    root_cause_pairs "rate limit exceeded".toList "".toList =
      [("API rate limiting".toList,
        "Rate limiting constraints mentioned in documentation".toList)] ∧
    analyze_root_cause "rate limit exceeded".toList "".toList now =
      ("**ROOT CAUSE ANALYSIS:**\n\n**Primary Root Causes Identified:** 1" ++
       "\n\n1. **API rate limiting**\n\n**Contributing Factors:**\n" ++
       "• Rate limiting constraints mentioned in documentation\n" ++
       "\n**Analysis Confidence:** Medium\n**Analysis Timestamp:** ").toList
      ++ now := by
  refine ⟨?_, by decide, ?_⟩
  · simp [analyze_root_cause, h, formatted_report, List.length_map]
  · rfl

/-- Witness for `c8_confidence` at the concrete rate-limit example. -/
theorem c8_confidence_witness :
    root_cause_pairs "rate limit exceeded".toList "".toList =
      [("API rate limiting".toList,
        "Rate limiting constraints mentioned in documentation".toList)] :=
  (c8_confidence "rate limit exceeded".toList "".toList "ts".toList
    (by decide)).2.1

end MoeAssist
